import Mathlib

/-!
Verification of the external-dns plugin provider protocol adapter.

This file gives a shallow embedding of the client-side proxy
(`PluginProvider` in `src/provider/plugin/plugin.go`, namespace `PluginGo`
here, and the metrics-instrumented revision in `src/unnamed/part_001`,
namespace `Part001` here), the server-side adapter
(`src/provider/plugin/httpapi.go`, namespace `HTTPApi`) and the AWS sample
adapter (`src/provider/aws/aws-plugin.go`, namespace `AwsPlugin`).

Each remote HTTP interaction of the proxy is modelled by an explicit
outcome value enumerating, in the order the Go code checks them, the
observable results of the sequence of fallible steps the code performs:
`url.JoinPath`, `json.Marshal` (only for operations that send a body),
`http.NewRequest`, `client.Do`, the status-code check, `io.ReadAll`, and
`json.Unmarshal`.  Server handlers are modelled as functions of the request
method, the decode result of the request body, and the wrapped local
operation, returning a record of the status written (with net/http's
implicit 200 applied by a separate `status` projection), the body written
and which wrapped operation was invoked.
-/

set_option autoImplicit false

/-- A DNS record as carried across the wire (models the external
`endpoint.Endpoint` type; the adapter and proxy treat it as a transparent
carrier and never inspect the fields themselves). -/
structure Endpoint where
  dnsName : String
  recordType : String
  targets : List String
deriving Repr, DecidableEq

/-- A change set as carried across the wire (models the external
`plan.Changes` type: four record lists, with no constraint between the
lengths of `updateOld` and `updateNew` imposed by the type itself). -/
structure Changes where
  create : List Endpoint
  updateOld : List Endpoint
  updateNew : List Endpoint
  deleteList : List Endpoint
deriving Repr, DecidableEq

/-- Wire request of the compare operation (`PropertyValuesEqualsRequest`
in both client revisions and in `httpapi.go`): `{name, previous, current}`. -/
structure PropertyValuesEqualsRequest where
  name : String
  previous : String
  current : String
deriving Repr, DecidableEq

/-- Wire response of the compare operation (`PropertiesValuesEqualsResponse`
on the client side, `PropertyValuesEqualsResponse` on the server side):
`{equals: bool}`. -/
structure PropertyValuesEqualsResponse where
  equals : Bool
deriving Repr, DecidableEq

/-- Result of reading and then JSON-decoding a response body on the client:
`io.ReadAll` may fail, `json.Unmarshal` may fail, or decoding yields a
value of the expected wire type. -/
inductive ReadResult (β : Type) where
  | readError
  | decodeError
  | ok (b : β)
deriving Repr, DecidableEq

/-- Observable outcome of one client HTTP round trip for an operation that
marshals a request body (`ApplyChanges`, `PropertyValuesEqual`,
`AdjustEndpoints`): each constructor is one failure point of the Go code,
in source order, and `httpResponse` carries the status together with what
reading/decoding the body would yield. -/
inductive RemoteOutcome (β : Type) where
  | joinPathError
  | marshalError
  | newRequestError
  | transportError
  | httpResponse (status : Nat) (body : ReadResult β)
deriving Repr, DecidableEq

/-- Observable outcome of one client HTTP round trip for the body-less GET
of `Records`: as `RemoteOutcome` but without a marshal step. -/
inductive RemoteGetOutcome (β : Type) where
  | joinPathError
  | newRequestError
  | transportError
  | httpResponse (status : Nat) (body : ReadResult β)
deriving Repr, DecidableEq

/-- A successfully parsed base URL (models `*url.URL`; the proxy only ever
turns it back into a string, so the parse is kept abstract). -/
structure ParsedURL where
  raw : String
deriving Repr, DecidableEq

/-- The client-side proxy: transport configuration only (models the
`PluginProvider` struct; the `*http.Client` field carries no observable
state and is omitted). -/
structure PluginProvider where
  remoteServerURL : ParsedURL
deriving Repr, DecidableEq

namespace PluginGo

/-- `NewPluginProvider` of `src/provider/plugin/plugin.go`: parse the URL
string and build the proxy.  The input is the outcome of `url.Parse`
(Go's `url.Parse` accepts the empty string, so `""` is among the `.ok`
inputs).  The second component counts HTTP requests performed during
construction: this revision performs none. -/
def NewPluginProvider (parseResult : Except Unit ParsedURL) :
    Except Unit PluginProvider × Nat :=
  match parseResult with
  | .error e => (.error e, 0)
  | .ok u => (.ok ⟨u⟩, 0)

/-- `Records` of `src/provider/plugin/plugin.go`: GET on the records route;
every local or transport failure and every read/decode failure is returned
as an error, but the HTTP status code is never inspected — any response
whose body decodes as a record list is returned as a success. -/
def Records (o : RemoteGetOutcome (List Endpoint)) :
    Except Unit (List Endpoint) :=
  match o with
  | .joinPathError => .error ()
  | .newRequestError => .error ()
  | .transportError => .error ()
  | .httpResponse _ body =>
    match body with
    | .readError => .error ()
    | .decodeError => .error ()
    | .ok endpoints => .ok endpoints

/-- `ApplyChanges` of `src/provider/plugin/plugin.go`: POST the change set
to the records route; local, marshal and transport failures and every
non-200 status are returned as errors; a 200 response means success and
the body is never read. -/
def ApplyChanges (_changes : Changes) (o : RemoteOutcome Unit) :
    Except Unit Unit :=
  match o with
  | .joinPathError => .error ()
  | .marshalError => .error ()
  | .newRequestError => .error ()
  | .transportError => .error ()
  | .httpResponse s _ =>
    if s ≠ 200 then .error () else .ok ()

/-- Path segment the compare operation joins onto the base URL in
`src/provider/plugin/plugin.go` (note the extra "ies": the string literal
in the source is "propertiesvaluesequal"). -/
def comparePathSegment : String := "propertiesvaluesequal"

/-- HTTP method the compare operation passes to `http.NewRequest` in
`src/provider/plugin/plugin.go`. -/
def compareMethod : String := "GET"

/-- `PropertyValuesEqual` of `src/provider/plugin/plugin.go`: send the
`{name, previous, current}` request; on any failure (join, marshal,
request build, transport, non-200 status, body read, decode) fall back to
the literal string comparison `previous == current`; on a 200 response
with a well-formed body return the decoded `equals` boolean.  The Go
signature returns a plain `bool`, so no error can reach the caller. -/
def PropertyValuesEqual (_name previous current : String)
    (o : RemoteOutcome Bool) : Bool :=
  match o with
  | .joinPathError => previous == current
  | .marshalError => previous == current
  | .newRequestError => previous == current
  | .transportError => previous == current
  | .httpResponse s body =>
    if s ≠ 200 then previous == current
    else
      match body with
      | .readError => previous == current
      | .decodeError => previous == current
      | .ok b => b

/-- `AdjustEndpoints` of `src/provider/plugin/plugin.go`: POST the record
list to the adjustment route; on every local, transport, body-read or
decode failure return the original input list unchanged — but, like
`Records` of the same file, the HTTP status code is never inspected: any
response whose body decodes as a record list yields the decoded list,
whatever its status.  The Go signature returns a plain slice, so no error
can reach the caller. -/
def AdjustEndpoints (e : List Endpoint)
    (o : RemoteOutcome (List Endpoint)) : List Endpoint :=
  match o with
  | .joinPathError => e
  | .marshalError => e
  | .newRequestError => e
  | .transportError => e
  | .httpResponse _ body =>
    match body with
    | .readError => e
    | .decodeError => e
    | .ok endpoints => endpoints

end PluginGo

namespace Part001

/-- Media-type identifier constant of the plugin package
(`mediaTypeFormatAndVersion` in `src/unnamed/part_001`, also used by
`src/provider/plugin/httpapi.go`, which lives in the same package). -/
def mediaTypeFormatAndVersion : String :=
  "application/external.dns.plugin+json;version=1"

/-- Header-name constant `contentTypeHeader` of the plugin package. -/
def contentTypeHeader : String := "Content-Type"

/-- Header-name constant `varyHeader` of the plugin package. -/
def varyHeader : String := "Vary"

/-- Observable outcome of the negotiation request issued by
`NewPluginProvider` in `src/unnamed/part_001`: the request build may fail,
the transport may fail, or a response arrives carrying `Vary` and
`Content-Type` header values. -/
inductive NegotiationOutcome where
  | newRequestError
  | transportError
  | headers (vary : String) (contentType : String)
deriving Repr, DecidableEq

/-- `NewPluginProvider` of `src/unnamed/part_001`: parse the URL, then
issue one GET against the base URL with `Accept` set to the media type and
require the response's `Vary` header to equal "Content-Type" and its
`Content-Type` header to equal the media-type string; any failure aborts
construction with an error.  The second component counts HTTP requests
performed; the third is the increment applied to the records-errors gauge
(the transport-failure branch increments it). -/
def NewPluginProvider (parseResult : Except Unit ParsedURL)
    (o : NegotiationOutcome) : Except Unit PluginProvider × Nat × Nat :=
  match parseResult with
  | .error e => (.error e, 0, 0)
  | .ok u =>
    match o with
    | .newRequestError => (.error (), 0, 0)
    | .transportError => (.error (), 1, 1)
    | .headers vary contentType =>
      if vary ≠ contentTypeHeader then (.error (), 1, 0)
      else if contentType ≠ mediaTypeFormatAndVersion then (.error (), 1, 0)
      else (.ok ⟨u⟩, 1, 0)

/-- `Records` of `src/unnamed/part_001`.  First component: the result
(error on join, request build, transport, non-200 status, body read or
decode failure; decoded record list on a 200 with well-formed body).
Second component: the increment applied to the records-errors gauge
(`recordsErrorsGauge.Inc()` sits on the transport, status, read and
decode failure branches but not on the two pre-request branches). -/
def Records (o : RemoteGetOutcome (List Endpoint)) :
    Except Unit (List Endpoint) × Nat :=
  match o with
  | .joinPathError => (.error (), 0)
  | .newRequestError => (.error (), 0)
  | .transportError => (.error (), 1)
  | .httpResponse s body =>
    if s ≠ 200 then (.error (), 1)
    else
      match body with
      | .readError => (.error (), 1)
      | .decodeError => (.error (), 1)
      | .ok endpoints => (.ok endpoints, 0)

/-- `ApplyChanges` of `src/unnamed/part_001`.  First component: the result
(error on join, marshal, request build, transport failure or non-200
status; success on a 200 response, whose body is never read).  Second
component: the increment applied to the applychanges-errors gauge (the
transport and status failure branches increment it; the three pre-request
branches do not). -/
def ApplyChanges (_changes : Changes) (o : RemoteOutcome Unit) :
    Except Unit Unit × Nat :=
  match o with
  | .joinPathError => (.error (), 0)
  | .marshalError => (.error (), 0)
  | .newRequestError => (.error (), 0)
  | .transportError => (.error (), 1)
  | .httpResponse s _ =>
    if s ≠ 200 then (.error (), 1) else (.ok (), 0)

/-- Path segment the compare operation joins onto the base URL in
`src/unnamed/part_001` (the source literal is "propertiesvaluesequal"). -/
def comparePathSegment : String := "propertiesvaluesequal"

/-- HTTP method the compare operation passes to `http.NewRequest` in
`src/unnamed/part_001`. -/
def compareMethod : String := "GET"

/-- `PropertyValuesEqual` of `src/unnamed/part_001`.  First component: the
boolean result — the literal comparison `previous == current` on every
failure branch, the decoded `equals` on a 200 with well-formed body; the
Go signature returns a plain `bool`, so no error can reach the caller.
Second component: the increment applied to the propertyvaluesequal-errors
gauge (`propertyValuesEqualErrorsGauge.Inc()` sits on the transport,
status, read and decode failure branches but not on the join, marshal or
request-build branches). -/
def PropertyValuesEqual (_name previous current : String)
    (o : RemoteOutcome Bool) : Bool × Nat :=
  match o with
  | .joinPathError => (previous == current, 0)
  | .marshalError => (previous == current, 0)
  | .newRequestError => (previous == current, 0)
  | .transportError => (previous == current, 1)
  | .httpResponse s body =>
    if s ≠ 200 then (previous == current, 1)
    else
      match body with
      | .readError => (previous == current, 1)
      | .decodeError => (previous == current, 1)
      | .ok b => (b, 0)

/-- `AdjustEndpoints` of `src/unnamed/part_001`.  First component: the
returned record list — the original input `e` on every failure branch, the
decoded adjusted list on a 200 with well-formed body; the Go signature
returns a plain slice, so no error can reach the caller.  Second
component: the increment applied to the adjustendpoints-errors gauge (the
transport, status, read and decode failure branches increment it; the
three pre-request branches do not). -/
def AdjustEndpoints (e : List Endpoint)
    (o : RemoteOutcome (List Endpoint)) : List Endpoint × Nat :=
  match o with
  | .joinPathError => (e, 0)
  | .marshalError => (e, 0)
  | .newRequestError => (e, 0)
  | .transportError => (e, 1)
  | .httpResponse s body =>
    if s ≠ 200 then (e, 1)
    else
      match body with
      | .readError => (e, 1)
      | .decodeError => (e, 1)
      | .ok endpoints => (endpoints, 0)

end Part001

/-- Result of the server-side JSON decode of a request body
(`json.NewDecoder(req.Body).Decode(&x)`): either a decode error or a value
of the wire type.  Go's decoder fills a plain struct field by field and
performs no cross-field validation, so every structurally well-formed
payload — including a `Changes` value with differing `updateOld` and
`updateNew` lengths — decodes to `.ok`. -/
inductive DecodeResult (α : Type) where
  | err
  | ok (a : α)
deriving Repr, DecidableEq

namespace HTTPApi

/-- Response of the negotiation endpoint: explicit status, the two
negotiation header values, and the body written after the headers. -/
structure NegotiateResponse where
  status : Nat
  vary : String
  contentType : String
  body : String
deriving Repr, DecidableEq

/-- `negotiate` of `src/provider/plugin/httpapi.go`, registered on `/`:
ignore the request entirely, set `Vary` to the content-type header name
and `Content-Type` to the media-type string, write status 200, write no
body. -/
def negotiate (_method _body : String) : NegotiateResponse :=
  { status := 200
    vary := Part001.contentTypeHeader
    contentType := Part001.mediaTypeFormatAndVersion
    body := "" }

/-- What `recordsHandler` of `src/provider/plugin/httpapi.go` writes and
invokes: the explicitly written status (if any), the record list encoded
into the body (if any), and which wrapped operations were called. -/
structure RecordsHandlerResult where
  writtenStatus : Option Nat
  body : Option (List Endpoint)
  recordsCalled : Bool
  applyCalled : Bool
deriving Repr, DecidableEq

/-- Effective HTTP status of a records-route response: net/http sends an
implicit 200 when the handler finishes without calling `WriteHeader`. -/
def RecordsHandlerResult.status (r : RecordsHandlerResult) : Nat :=
  r.writtenStatus.getD 200

/-- `recordsHandler` of `src/provider/plugin/httpapi.go`: GET invokes the
wrapped `Records` (500 on local error, else 200 with the encoded list);
POST decodes a `Changes` body (400 on decode error) and invokes the
wrapped `ApplyChanges` (500 on local error, else 200); any other method
writes 400 without invoking anything.  No validation beyond the JSON
decode is performed on the decoded `Changes`. -/
def recordsHandler (method : String) (body : DecodeResult Changes)
    (localRecords : Except Unit (List Endpoint))
    (localApplyChanges : Changes → Except Unit Unit) :
    RecordsHandlerResult :=
  if method = "GET" then
    match localRecords with
    | .error _ =>
      { writtenStatus := some 500, body := none
        recordsCalled := true, applyCalled := false }
    | .ok records =>
      { writtenStatus := some 200, body := some records
        recordsCalled := true, applyCalled := false }
  else if method = "POST" then
    match body with
    | .err =>
      { writtenStatus := some 400, body := none
        recordsCalled := false, applyCalled := false }
    | .ok changes =>
      match localApplyChanges changes with
      | .error _ =>
        { writtenStatus := some 500, body := none
          recordsCalled := false, applyCalled := true }
      | .ok _ =>
        { writtenStatus := some 200, body := none
          recordsCalled := false, applyCalled := true }
  else
    { writtenStatus := some 400, body := none
      recordsCalled := false, applyCalled := false }

/-- What `propertyValuesEqualHandler` of `src/provider/plugin/httpapi.go`
writes and invokes. -/
structure PVEHandlerResult where
  writtenStatus : Option Nat
  body : Option PropertyValuesEqualsResponse
  compareCalled : Bool
deriving Repr, DecidableEq

/-- Effective HTTP status of a comparison-route response: net/http sends
an implicit 200 when the handler finishes without calling `WriteHeader`,
which is what the success path of this handler does (it only writes the
marshalled body). -/
def PVEHandlerResult.status (r : PVEHandlerResult) : Nat :=
  r.writtenStatus.getD 200

/-- `propertyValuesEqualHandler` of `src/provider/plugin/httpapi.go`:
non-POST methods get 400; a body that fails to decode as
`PropertyValuesEqualsRequest` gets 400; otherwise the wrapped local
`PropertyValuesEqual` is invoked and its boolean is written back as
`{equals: b}` with no explicit status (marshalling a one-boolean struct
cannot fail in Go, so the error branch around `json.Marshal` only logs).
The wrapped operation returns a plain boolean, so no branch can write
500. -/
def propertyValuesEqualHandler (method : String)
    (body : DecodeResult PropertyValuesEqualsRequest)
    (localPropertyValuesEqual : String → String → String → Bool) :
    PVEHandlerResult :=
  if method ≠ "POST" then
    { writtenStatus := some 400, body := none, compareCalled := false }
  else
    match body with
    | .err =>
      { writtenStatus := some 400, body := none, compareCalled := false }
    | .ok pve =>
      { writtenStatus := none
        body := some ⟨localPropertyValuesEqual pve.name pve.previous pve.current⟩
        compareCalled := true }

/-- What `adjustEndpointsHandler` of `src/provider/plugin/httpapi.go`
writes and invokes. -/
structure AdjustHandlerResult where
  writtenStatus : Option Nat
  body : Option (List Endpoint)
  adjustCalled : Bool
deriving Repr, DecidableEq

/-- Effective HTTP status of an adjustment-route response (implicit 200
when nothing was written explicitly). -/
def AdjustHandlerResult.status (r : AdjustHandlerResult) : Nat :=
  r.writtenStatus.getD 200

/-- `adjustEndpointsHandler` of `src/provider/plugin/httpapi.go`: non-POST
methods get 400; a body that fails to decode as a record list gets 400;
otherwise the wrapped local `AdjustEndpoints` is invoked and its result is
written back with no explicit status. -/
def adjustEndpointsHandler (method : String)
    (body : DecodeResult (List Endpoint))
    (localAdjustEndpoints : List Endpoint → List Endpoint) :
    AdjustHandlerResult :=
  if method ≠ "POST" then
    { writtenStatus := some 400, body := none, adjustCalled := false }
  else
    match body with
    | .err =>
      { writtenStatus := some 400, body := none, adjustCalled := false }
    | .ok endpoints =>
      { writtenStatus := none
        body := some (localAdjustEndpoints endpoints)
        adjustCalled := true }

/-- Routes registered by `StartHTTPApi` of
`src/provider/plugin/httpapi.go`, in registration order. -/
def registeredRoutes : List String :=
  ["/", "/records", "/propertyvaluesequal", "/adjustendpoints"]

/-- The comparison route pattern registered by `StartHTTPApi`. -/
def serverCompareRoute : String := "/propertyvaluesequal"

end HTTPApi

namespace AwsPlugin

/-- Media-type identifier constant duplicated in
`src/provider/aws/aws-plugin.go`. -/
def mediaTypeFormatAndVersion : String :=
  "application/external.dns.plugin+json;version=1"

/-- Header-name constant `contentTypeHeader` of the aws package. -/
def contentTypeHeader : String := "Content-Type"

/-- Header-name constant `varyHeader` of the aws package. -/
def varyHeader : String := "Vary"

/-- What `awsProviderHandler` of `src/provider/aws/aws-plugin.go` writes
and invokes; `applyCalls` counts invocations of the wrapped
`ApplyChanges` (the POST branch of this handler calls it twice and
discards the first result; the wrapped operation is modelled as a pure
function, so both calls yield the same value). -/
structure AwsRecordsHandlerResult where
  writtenStatus : Option Nat
  body : Option (List Endpoint)
  recordsCalled : Bool
  applyCalls : Nat
deriving Repr, DecidableEq

/-- Effective HTTP status (net/http's implicit 200 when the handler ends
without writing one — which the unknown-method branch of this handler
does: it only logs "this should never happen"). -/
def AwsRecordsHandlerResult.status (r : AwsRecordsHandlerResult) : Nat :=
  r.writtenStatus.getD 200

/-- `awsProviderHandler` of `src/provider/aws/aws-plugin.go`: GET invokes
the wrapped `Records` (500 on local error, else 200 with the encoded
list); POST decodes a `Changes` body (400 on decode error), invokes the
wrapped `ApplyChanges` twice, and answers by the second result (500 on
local error, else 200); any other method logs and returns without writing
a status or invoking anything. -/
def awsProviderHandler (method : String) (body : DecodeResult Changes)
    (localRecords : Except Unit (List Endpoint))
    (localApplyChanges : Changes → Except Unit Unit) :
    AwsRecordsHandlerResult :=
  if method = "GET" then
    match localRecords with
    | .error _ =>
      { writtenStatus := some 500, body := none
        recordsCalled := true, applyCalls := 0 }
    | .ok records =>
      { writtenStatus := some 200, body := some records
        recordsCalled := true, applyCalls := 0 }
  else if method = "POST" then
    match body with
    | .err =>
      { writtenStatus := some 400, body := none
        recordsCalled := false, applyCalls := 0 }
    | .ok changes =>
      match localApplyChanges changes with
      | .error _ =>
        { writtenStatus := some 500, body := none
          recordsCalled := false, applyCalls := 2 }
      | .ok _ =>
        { writtenStatus := some 200, body := none
          recordsCalled := false, applyCalls := 2 }
  else
    { writtenStatus := none, body := none
      recordsCalled := false, applyCalls := 0 }

/-- `propertyValuesEquals` of `src/provider/aws/aws-plugin.go`: only a GET
request is served (decode error → 400, else the wrapped boolean is
written back with no explicit status); any other method — including the
POST the protocol table prescribes — falls through the `if` and the
handler returns without writing anything or invoking the wrapped
operation. -/
def propertyValuesEquals (method : String)
    (body : DecodeResult PropertyValuesEqualsRequest)
    (localPropertyValuesEqual : String → String → String → Bool) :
    HTTPApi.PVEHandlerResult :=
  if method = "GET" then
    match body with
    | .err =>
      { writtenStatus := some 400, body := none, compareCalled := false }
    | .ok pve =>
      { writtenStatus := none
        body := some ⟨localPropertyValuesEqual pve.name pve.previous pve.current⟩
        compareCalled := true }
  else
    { writtenStatus := none, body := none, compareCalled := false }

/-- `adjustEndpoints` of `src/provider/aws/aws-plugin.go`: only a GET
request is served (decode error → 400, else the wrapped result is written
back with no explicit status); any other method falls through and the
handler returns without writing anything or invoking the wrapped
operation. -/
def adjustEndpoints (method : String) (body : DecodeResult (List Endpoint))
    (localAdjustEndpoints : List Endpoint → List Endpoint) :
    HTTPApi.AdjustHandlerResult :=
  if method = "GET" then
    match body with
    | .err =>
      { writtenStatus := some 400, body := none, adjustCalled := false }
    | .ok endpoints =>
      { writtenStatus := none
        body := some (localAdjustEndpoints endpoints)
        adjustCalled := true }
  else
    { writtenStatus := none, body := none, adjustCalled := false }

/-- `Negotiate` of `src/provider/aws/aws-plugin.go`, registered on `/`:
ignore the request, set `Vary` to the content-type header name and
`Content-Type` to the media-type string, write status 200, write no
body. -/
def Negotiate (_method _body : String) : HTTPApi.NegotiateResponse :=
  { status := 200
    vary := contentTypeHeader
    contentType := mediaTypeFormatAndVersion
    body := "" }

end AwsPlugin

/-- C1: in both client revisions, every failure of the remote comparison
call enumerated by the claim — transport error, non-200 response status,
body-read failure, JSON decode failure — makes `PropertyValuesEqual(name,
previous, current)` return the literal string equality
`previous == current`, and a 200 response with a well-formed body makes it
return the decoded `equals` boolean.  The Go method returns a plain
`bool`, so no error can propagate to the caller on any branch. -/
theorem propertyValuesEqual_soft_fallback
    (name previous current : String) :
    (PluginGo.PropertyValuesEqual name previous current
        .transportError = (previous == current)) ∧
    (∀ (s : Nat) (b : ReadResult Bool), s ≠ 200 →
      PluginGo.PropertyValuesEqual name previous current
        (.httpResponse s b) = (previous == current)) ∧
    (PluginGo.PropertyValuesEqual name previous current
        (.httpResponse 200 .readError) = (previous == current)) ∧
    (PluginGo.PropertyValuesEqual name previous current
        (.httpResponse 200 .decodeError) = (previous == current)) ∧
    (∀ b : Bool, PluginGo.PropertyValuesEqual name previous current
        (.httpResponse 200 (.ok b)) = b) ∧
    ((Part001.PropertyValuesEqual name previous current
        .transportError).1 = (previous == current)) ∧
    (∀ (s : Nat) (b : ReadResult Bool), s ≠ 200 →
      (Part001.PropertyValuesEqual name previous current
        (.httpResponse s b)).1 = (previous == current)) ∧
    ((Part001.PropertyValuesEqual name previous current
        (.httpResponse 200 .readError)).1 = (previous == current)) ∧
    ((Part001.PropertyValuesEqual name previous current
        (.httpResponse 200 .decodeError)).1 = (previous == current)) ∧
    (∀ b : Bool, (Part001.PropertyValuesEqual name previous current
        (.httpResponse 200 (.ok b))).1 = b) := by
  refine ⟨rfl, ?_, rfl, rfl, fun b => rfl, rfl, ?_, rfl, rfl, fun b => rfl⟩
  · intro s b hs
    simp only [PluginGo.PropertyValuesEqual, if_pos hs]
  · intro s b hs
    simp only [Part001.PropertyValuesEqual, if_pos hs]

/-- C1 witness: the fallback theorem applied at a concrete non-200
status. -/
theorem propertyValuesEqual_soft_fallback_witness :
    PluginGo.PropertyValuesEqual "ttl" "300" "300"
      (.httpResponse 500 .readError) = ("300" == "300") :=
  (propertyValuesEqual_soft_fallback "ttl" "300" "300").2.1 500
    .readError (by decide)

/-- C2 counterexample: in the `src/provider/plugin/plugin.go` revision,
`AdjustEndpoints` never inspects the HTTP status code.  On a response
with status 500 whose body decodes as an (empty) record list, the call
returns the decoded empty list instead of the original one-element input
list, contradicting the claim that every failure of the remote adjustment
call — a non-200 response status included — returns exactly `e`. -/
theorem adjustEndpoints_ignores_status_cex :
    PluginGo.AdjustEndpoints [⟨"a.example.com", "A", ["1.2.3.4"]⟩]
      (.httpResponse 500 (.ok [])) = [] ∧
    ([] : List Endpoint) ≠ [⟨"a.example.com", "A", ["1.2.3.4"]⟩] := by
  exact ⟨rfl, by decide⟩

/-- C2 amended: in the `src/unnamed/part_001` revision the claim holds as
stated — every failure of the remote adjustment call (transport error,
non-200 response status, body-read failure, JSON decode failure) makes
`AdjustEndpoints(e)` return exactly the input list `e`, and a 200
response with a well-formed body yields the decoded adjusted list.  In
the `src/provider/plugin/plugin.go` revision `AdjustEndpoints` returns
`e` on transport, body-read and decode failures but never inspects the
status code: any response whose body decodes as a record list — whatever
its status — yields the decoded list.  Both Go methods return a plain
slice, so no error can propagate to the caller on any branch. -/
theorem adjustEndpoints_soft_fallback (e : List Endpoint) :
    (PluginGo.AdjustEndpoints e .transportError = e) ∧
    (∀ s : Nat,
      PluginGo.AdjustEndpoints e (.httpResponse s .readError) = e) ∧
    (∀ s : Nat,
      PluginGo.AdjustEndpoints e (.httpResponse s .decodeError) = e) ∧
    (∀ (s : Nat) (adjusted : List Endpoint),
      PluginGo.AdjustEndpoints e (.httpResponse s (.ok adjusted))
        = adjusted) ∧
    ((Part001.AdjustEndpoints e .transportError).1 = e) ∧
    (∀ (s : Nat) (b : ReadResult (List Endpoint)), s ≠ 200 →
      (Part001.AdjustEndpoints e (.httpResponse s b)).1 = e) ∧
    ((Part001.AdjustEndpoints e (.httpResponse 200 .readError)).1 = e) ∧
    ((Part001.AdjustEndpoints e (.httpResponse 200 .decodeError)).1 = e) ∧
    (∀ adjusted : List Endpoint,
      (Part001.AdjustEndpoints e (.httpResponse 200 (.ok adjusted))).1
        = adjusted) := by
  refine ⟨rfl, fun s => rfl, fun s => rfl, fun s a => rfl, rfl, ?_,
    rfl, rfl, fun a => rfl⟩
  intro s b hs
  simp only [Part001.AdjustEndpoints, if_pos hs]

/-- C2 witness: the amended theorem applied at a concrete input list and
a concrete non-200 status for the revision that checks the status. -/
theorem adjustEndpoints_soft_fallback_witness :
    (Part001.AdjustEndpoints [⟨"a.example.com", "A", []⟩]
      (.httpResponse 503 .decodeError)).1 = [⟨"a.example.com", "A", []⟩] :=
  (adjustEndpoints_soft_fallback [⟨"a.example.com", "A", []⟩]).2.2.2.2.2.1
    503 .decodeError (by decide)

/-- C3 counterexample: in the `src/provider/plugin/plugin.go` revision,
`Records` never inspects the HTTP status code.  A response with status 500
whose body decodes as an (empty) record list is returned as a success with
nil error, contradicting the claim that every non-2xx response status
results in a non-nil error for the list operation. -/
theorem records_ignores_status_cex :
    PluginGo.Records (.httpResponse 500 (.ok [])) = Except.ok [] := rfl

/-- C3 amended: in the `src/unnamed/part_001` revision, `Records` and
`ApplyChanges` turn transport errors, non-200 statuses and (for `Records`)
body-read and decode failures into non-nil errors, and a 200 response with
a well-formed body yields the decoded records / nil error.  `ApplyChanges`
of `src/provider/plugin/plugin.go` behaves the same.  `Records` of
`src/provider/plugin/plugin.go`, however, errors only on transport,
body-read and decode failures: any response whose body decodes as a record
list — whatever its status — is returned with nil error. -/
theorem list_apply_hard_failure (changes : Changes) :
    ((Part001.Records .transportError).1 = .error ()) ∧
    (∀ (s : Nat) (b : ReadResult (List Endpoint)), s ≠ 200 →
      (Part001.Records (.httpResponse s b)).1 = .error ()) ∧
    ((Part001.Records (.httpResponse 200 .readError)).1 = .error ()) ∧
    ((Part001.Records (.httpResponse 200 .decodeError)).1 = .error ()) ∧
    (∀ es : List Endpoint,
      (Part001.Records (.httpResponse 200 (.ok es))).1 = .ok es) ∧
    ((Part001.ApplyChanges changes .transportError).1 = .error ()) ∧
    (∀ (s : Nat) (b : ReadResult Unit), s ≠ 200 →
      (Part001.ApplyChanges changes (.httpResponse s b)).1 = .error ()) ∧
    (∀ b : ReadResult Unit,
      (Part001.ApplyChanges changes (.httpResponse 200 b)).1 = .ok ()) ∧
    (PluginGo.ApplyChanges changes .transportError = .error ()) ∧
    (∀ (s : Nat) (b : ReadResult Unit), s ≠ 200 →
      PluginGo.ApplyChanges changes (.httpResponse s b) = .error ()) ∧
    (∀ b : ReadResult Unit,
      PluginGo.ApplyChanges changes (.httpResponse 200 b) = .ok ()) ∧
    (PluginGo.Records .transportError = .error ()) ∧
    (∀ s : Nat, PluginGo.Records (.httpResponse s .readError) = .error ()) ∧
    (∀ s : Nat,
      PluginGo.Records (.httpResponse s .decodeError) = .error ()) ∧
    (∀ (s : Nat) (es : List Endpoint),
      PluginGo.Records (.httpResponse s (.ok es)) = .ok es) := by
  refine ⟨rfl, ?_, rfl, rfl, fun es => rfl, rfl, ?_, fun b => rfl, rfl, ?_,
    fun b => rfl, rfl, fun s => rfl, fun s => rfl, fun s es => rfl⟩
  · intro s b hs
    simp only [Part001.Records, if_pos hs]
  · intro s b hs
    simp only [Part001.ApplyChanges, if_pos hs]
  · intro s b hs
    simp only [PluginGo.ApplyChanges, if_pos hs]

/-- C3 witness: the hard-failure theorem applied at a concrete change set
and a concrete non-200 status. -/
theorem list_apply_hard_failure_witness :
    (Part001.Records (.httpResponse 503 (.ok []))).1 = .error () :=
  (list_apply_hard_failure ⟨[], [], [], []⟩).2.1 503 (.ok []) (by decide)

/-- C4: the comparison request the client actually builds does not match
the claim.  In both client revisions the path segment joined onto the base
URL is "propertiesvaluesequal" (so the full path does not equal the
"/propertyvaluesequal" route the server adapter registers) and the method
passed to `http.NewRequest` is "GET", not POST — and the server's
comparison handler answers any GET with 400 without invoking the wrapped
operation.  This is the latent client/server route divergence; only the
JSON body `{name, previous, current}` part of the claim matches the
code. -/
theorem compare_request_route_divergence :
    ("/" ++ PluginGo.comparePathSegment ≠ HTTPApi.serverCompareRoute) ∧
    ("/" ++ Part001.comparePathSegment ≠ HTTPApi.serverCompareRoute) ∧
    (PluginGo.compareMethod ≠ "POST") ∧
    (Part001.compareMethod ≠ "POST") ∧
    (∀ (d : DecodeResult PropertyValuesEqualsRequest)
        (f : String → String → String → Bool),
      HTTPApi.propertyValuesEqualHandler PluginGo.compareMethod d f =
        { writtenStatus := some 400, body := none, compareCalled := false }) := by
  refine ⟨by decide, by decide, by decide, by decide, fun d f => ?_⟩
  simp only [HTTPApi.propertyValuesEqualHandler, PluginGo.compareMethod]
  rw [if_pos (by decide)]

/-- C5 counterexample: the URL-join failure branch of the compare
operation in `src/unnamed/part_001` returns the string-equality default —
so it is a failure branch of the operation — yet applies increment 0, not
1, to the compare-failure counter.  The same holds for the marshal and
request-build failure branches, refuting the claim that every failure
branch increments the counter by exactly one. -/
theorem compare_counter_missing_increment_cex :
    Part001.PropertyValuesEqual "ttl" "300" "301" .joinPathError
      = (false, 0) := by decide

/-- C5 amended: in `src/unnamed/part_001` each operation's failure counter
is incremented by exactly one on the transport-error branch, on every
non-200 status branch, and (where the body is read) on the body-read and
decode failure branches; it is unchanged on success and also unchanged on
the pre-request local failure branches (URL join, JSON marshal, request
construction), even though those also take the operation's failure path.
When the server is unreachable, `PropertyValuesEqual("ttl","300","300")`
returns `true` with increment one on the compare-failure counter. -/
theorem failure_counter_increments
    (name previous current : String) (e : List Endpoint)
    (changes : Changes) :
    (Part001.PropertyValuesEqual "ttl" "300" "300" .transportError
        = (true, 1)) ∧
    (∀ o : RemoteOutcome Bool,
      (Part001.PropertyValuesEqual name previous current o).2 =
        match o with
        | .transportError => 1
        | .httpResponse s b =>
          if s ≠ 200 then 1 else
            match b with
            | .ok _ => 0
            | _ => 1
        | _ => 0) ∧
    (∀ o : RemoteGetOutcome (List Endpoint),
      (Part001.Records o).2 =
        match o with
        | .transportError => 1
        | .httpResponse s b =>
          if s ≠ 200 then 1 else
            match b with
            | .ok _ => 0
            | _ => 1
        | _ => 0) ∧
    (∀ o : RemoteOutcome Unit,
      (Part001.ApplyChanges changes o).2 =
        match o with
        | .transportError => 1
        | .httpResponse s _ => if s ≠ 200 then 1 else 0
        | _ => 0) ∧
    (∀ o : RemoteOutcome (List Endpoint),
      (Part001.AdjustEndpoints e o).2 =
        match o with
        | .transportError => 1
        | .httpResponse s b =>
          if s ≠ 200 then 1 else
            match b with
            | .ok _ => 0
            | _ => 1
        | _ => 0) := by
  refine ⟨by decide, fun o => ?_, fun o => ?_, fun o => ?_, fun o => ?_⟩
  · cases o with
    | httpResponse s b =>
      by_cases hs : s ≠ 200
      · simp only [Part001.PropertyValuesEqual, if_pos hs]
      · cases b <;> simp only [Part001.PropertyValuesEqual, if_neg hs]
    | _ => rfl
  · cases o with
    | httpResponse s b =>
      by_cases hs : s ≠ 200
      · simp only [Part001.Records, if_pos hs]
      · cases b <;> simp only [Part001.Records, if_neg hs]
    | _ => rfl
  · cases o with
    | httpResponse s b =>
      by_cases hs : s ≠ 200
      · simp only [Part001.ApplyChanges, if_pos hs]
      · simp only [Part001.ApplyChanges, if_neg hs]
    | _ => rfl
  · cases o with
    | httpResponse s b =>
      by_cases hs : s ≠ 200
      · simp only [Part001.AdjustEndpoints, if_pos hs]
      · cases b <;> simp only [Part001.AdjustEndpoints, if_neg hs]
    | _ => rfl

/-- C6: both negotiation endpoints answer every request — whatever its
method or body — with status 200, `Vary` equal to "Content-Type",
`Content-Type` equal to the fixed media-type string, and an empty body. -/
theorem negotiate_fixed_response (method body : String) :
    HTTPApi.negotiate method body =
      { status := 200, vary := "Content-Type"
        contentType := "application/external.dns.plugin+json;version=1"
        body := "" } ∧
    AwsPlugin.Negotiate method body =
      { status := 200, vary := "Content-Type"
        contentType := "application/external.dns.plugin+json;version=1"
        body := "" } :=
  ⟨rfl, rfl⟩

/-- A change set with one record in `updateOld` and none in `updateNew`,
violating the claimed length invariant. -/
def mismatchedChanges : Changes :=
  { create := []
    updateOld := [⟨"a.example.com", "A", ["1.2.3.4"]⟩]
    updateNew := []
    deleteList := [] }

/-- C7 counterexample: a POST to the records route whose body decodes as a
change set with `len(updateOld) = 1` and `len(updateNew) = 0` is not
rejected: the server adapter invokes the wrapped apply operation and
answers 200, contradicting the claim that a decoder receiving mismatched
lengths rejects the payload with 400 and no apply. -/
theorem mismatched_changes_accepted_cex :
    mismatchedChanges.updateOld.length = 1 ∧
    mismatchedChanges.updateNew.length = 0 ∧
    HTTPApi.recordsHandler "POST" (.ok mismatchedChanges) (.ok [])
        (fun _ => .ok ()) =
      { writtenStatus := some 200, body := none
        recordsCalled := false, applyCalled := true } := by
  refine ⟨rfl, rfl, rfl⟩

/-- C7 amended: the adapter performs no length validation on the decoded
change set.  A POST to the records route answers 400 exactly when the JSON
decode fails, and every successfully decoded change set — those with
mismatched `updateOld`/`updateNew` lengths included — is passed to the
wrapped apply operation, answering 200 on local success and 500 on local
failure. -/
theorem records_post_no_length_validation :
    (∀ (localRecords : Except Unit (List Endpoint))
        (localApplyChanges : Changes → Except Unit Unit),
      HTTPApi.recordsHandler "POST" .err localRecords localApplyChanges =
        { writtenStatus := some 400, body := none
          recordsCalled := false, applyCalled := false }) ∧
    (∀ (c : Changes) (localRecords : Except Unit (List Endpoint))
        (localApplyChanges : Changes → Except Unit Unit),
      HTTPApi.recordsHandler "POST" (.ok c) localRecords
          localApplyChanges =
        match localApplyChanges c with
        | .error _ =>
          { writtenStatus := some 500, body := none
            recordsCalled := false, applyCalled := true }
        | .ok _ =>
          { writtenStatus := some 200, body := none
            recordsCalled := false, applyCalled := true }) := by
  refine ⟨fun lr la => rfl, fun c lr la => ?_⟩
  simp only [HTTPApi.recordsHandler, if_true]
  cases la c <;> rfl

/-- C8 counterexample: the AWS adapter's records-route handler, given a
method it does not accept, returns without writing any status, so net/http
sends an implicit 200 — not the 400 the claim requires (the wrapped
operations are indeed not invoked). -/
theorem aws_wrong_method_implicit_200_cex :
    AwsPlugin.awsProviderHandler "DELETE" .err (.ok [])
        (fun _ => .ok ()) =
      { writtenStatus := none, body := none
        recordsCalled := false, applyCalls := 0 } ∧
    (AwsPlugin.awsProviderHandler "DELETE" .err (.ok [])
        (fun _ => .ok ())).status = 200 := by
  refine ⟨rfl, rfl⟩

/-- C8 amended: the plugin-package adapter (`httpapi.go`) answers every
request whose method the route does not accept with an explicit 400 and
invokes no wrapped operation; the AWS sample adapter also invokes no
wrapped operation on such requests but writes no status at all, so those
requests get net/http's implicit 200 rather than 400 (its compare and
adjust routes accept only GET, so even the protocol's prescribed POST
falls into that branch there). -/
theorem wrong_method_handling :
    (∀ (m : String) (d : DecodeResult Changes)
        (lr : Except Unit (List Endpoint))
        (la : Changes → Except Unit Unit),
      m ≠ "GET" → m ≠ "POST" →
      HTTPApi.recordsHandler m d lr la =
        { writtenStatus := some 400, body := none
          recordsCalled := false, applyCalled := false }) ∧
    (∀ (m : String) (d : DecodeResult PropertyValuesEqualsRequest)
        (f : String → String → String → Bool),
      m ≠ "POST" →
      HTTPApi.propertyValuesEqualHandler m d f =
        { writtenStatus := some 400, body := none
          compareCalled := false }) ∧
    (∀ (m : String) (d : DecodeResult (List Endpoint))
        (g : List Endpoint → List Endpoint),
      m ≠ "POST" →
      HTTPApi.adjustEndpointsHandler m d g =
        { writtenStatus := some 400, body := none
          adjustCalled := false }) ∧
    (∀ (m : String) (d : DecodeResult Changes)
        (lr : Except Unit (List Endpoint))
        (la : Changes → Except Unit Unit),
      m ≠ "GET" → m ≠ "POST" →
      AwsPlugin.awsProviderHandler m d lr la =
        { writtenStatus := none, body := none
          recordsCalled := false, applyCalls := 0 }) ∧
    (∀ (m : String) (d : DecodeResult PropertyValuesEqualsRequest)
        (f : String → String → String → Bool),
      m ≠ "GET" →
      AwsPlugin.propertyValuesEquals m d f =
        { writtenStatus := none, body := none, compareCalled := false }) ∧
    (∀ (m : String) (d : DecodeResult (List Endpoint))
        (g : List Endpoint → List Endpoint),
      m ≠ "GET" →
      AwsPlugin.adjustEndpoints m d g =
        { writtenStatus := none, body := none, adjustCalled := false }) := by
  refine ⟨?_, ?_, ?_, ?_, ?_, ?_⟩
  · intro m d lr la hg hp
    simp only [HTTPApi.recordsHandler, if_neg hg, if_neg hp]
  · intro m d f hp
    simp only [HTTPApi.propertyValuesEqualHandler, if_pos hp]
  · intro m d g hp
    simp only [HTTPApi.adjustEndpointsHandler, if_pos hp]
  · intro m d lr la hg hp
    simp only [AwsPlugin.awsProviderHandler, if_neg hg, if_neg hp]
  · intro m d f hg
    simp only [AwsPlugin.propertyValuesEquals, if_neg hg]
  · intro m d g hg
    simp only [AwsPlugin.adjustEndpoints, if_neg hg]

/-- C8 witness: the wrong-method theorem applied to a concrete DELETE
request on each adapter's records route. -/
theorem wrong_method_handling_witness :
    HTTPApi.recordsHandler "DELETE" .err (.ok []) (fun _ => .ok ()) =
      { writtenStatus := some 400, body := none
        recordsCalled := false, applyCalled := false } :=
  wrong_method_handling.1 "DELETE" .err (.ok []) (fun _ => .ok ())
    (by decide) (by decide)

/-- C9: `NewPluginProvider` of the `src/provider/plugin/plugin.go`
revision builds the proxy from the parsed URL alone: for every input the
URL parser accepts (Go's `url.Parse` accepts the empty string, so that is
among them) it returns the proxy with nil error and performs zero HTTP
requests — unlike the `src/unnamed/part_001` revision, whose constructor
issues the negotiation request and fails construction when it cannot be
completed, as the accompanying conjuncts show. -/
theorem newPluginProvider_no_construction_request (u : ParsedURL) :
    PluginGo.NewPluginProvider (.ok u) = (.ok ⟨u⟩, 0) ∧
    Part001.NewPluginProvider (.ok u) .transportError
      = (.error (), 1, 1) ∧
    (Part001.NewPluginProvider (.ok u)
      (.headers "Accept" Part001.mediaTypeFormatAndVersion)).1
      = .error () := by
  refine ⟨rfl, rfl, ?_⟩
  simp only [Part001.NewPluginProvider]
  rw [if_pos (by decide)]

/-- C10: the comparison handler of `httpapi.go` can never answer 500: its
only explicit status is the 400 of the method and decode checks, and on a
POST whose body decodes as a well-formed `PropertyValuesEqualsRequest` it
writes back `{equals: b}` where `b` is the wrapped local implementation's
boolean — which, being a plain boolean, leaves no internal-failure branch
to reach. -/
theorem propertyValuesEqualHandler_never_500 :
    (∀ (m : String) (d : DecodeResult PropertyValuesEqualsRequest)
        (f : String → String → String → Bool),
      (HTTPApi.propertyValuesEqualHandler m d f).status ≠ 500) ∧
    (∀ (pve : PropertyValuesEqualsRequest)
        (f : String → String → String → Bool),
      HTTPApi.propertyValuesEqualHandler "POST" (.ok pve) f =
        { writtenStatus := none
          body := some ⟨f pve.name pve.previous pve.current⟩
          compareCalled := true } ∧
      (HTTPApi.propertyValuesEqualHandler "POST" (.ok pve) f).status
        = 200) := by
  constructor
  · intro m d f
    by_cases hm : m ≠ "POST"
    · simp [HTTPApi.propertyValuesEqualHandler, if_pos hm,
        HTTPApi.PVEHandlerResult.status]
    · cases d <;>
        simp [HTTPApi.propertyValuesEqualHandler, if_neg hm,
          HTTPApi.PVEHandlerResult.status]
  · intro pve f
    constructor
    · simp only [HTTPApi.propertyValuesEqualHandler]
      rw [if_neg (by decide)]
    · simp only [HTTPApi.propertyValuesEqualHandler]
      rw [if_neg (by decide)]
      rfl
